import Mathlib

/-!
Shallow embedding of the zig-build cross-compilation driver
(src/src/index.ts), covering the per-target flag synthesis `buildOne`
and the tail of the orchestrator `build` (outcome collection,
compilation-database deduplication and persistence).

Modelling conventions:
* JS strings are Lean `String`s; `String.prototype.includes` is infix
  search on the character data; `split("-")[0]` is the maximal prefix of
  characters before the first dash.
* JS objects used as define maps (`Record<string, boolean|string|number>`)
  are insertion-ordered association lists `List (String × DefVal)`;
  object spread `\x7b ...pre, ...user \x7d` is `objMerge`, which keeps the
  pre keys in place (values overridden by the user map) and appends the
  remaining user keys in order.
* JS numbers are modelled as `Int` (the define values and Node-API
  versions used by the program are integers); template interpolation of a
  number uses decimal rendering, i.e. `toString : Int → String`.
* `path.join a b` is modelled as POSIX-style concatenation with a slash.
* Promises are modelled by explicit outcome values `Except Int Unit`
  (exit-code rejection); `Promise.all` propagates the first rejection and
  skips everything sequenced after the `await`.
-/

namespace ZigBuild

/-- Value of a preprocessor define: `boolean | string | number`. -/
inductive DefVal where
  | bool (b : Bool)
  | str (s : String)
  | num (n : Int)
deriving DecidableEq

/-- Output file type (`"bin" | "shared" | "static"`). -/
inductive OutputType where
  | bin
  | shared
  | static
deriving DecidableEq

/-- Optimisation mode (`"debug" | "fast" | "small"`). -/
inductive OutputMode where
  | debug
  | fast
  | small
deriving DecidableEq

/-- A target configuration (interface `BaseTarget` with the
platform-conditional extensions of `NixTarget`/`GnuTarget`/`MacosTarget`
flattened in, since at run time the fields are plain optional properties).
`Option` models field absence (`undefined`); for `rpath` the
array-or-scalar value is kept already normalised to a list (a truthy
scalar `s` is `some [s]`, a falsy scalar is `none`). -/
structure Target where
  target : Option String := none
  cpu : Option String := none
  output : String
  type : Option OutputType := none
  mode : Option OutputMode := none
  sources : List String
  includes : List String := []
  libraries : List String := []
  librariesSearch : List String := []
  napiVersion : Option Int := none
  defines : Option (List (String × DefVal)) := none
  std : Option String := none
  exceptions : Option Bool := none
  cflags : List String := []
  verbose : Bool := false
  rpath : Option (List String) := none
  glibc : Option String := none
  frameworks : Option (List String) := none
  frameworksSearch : Option (List String) := none
deriving DecidableEq

/-- Ambient inputs of `buildOne`: the working directory, the resolved
Node headers directory for this target, the zig binary name, the
optional node-addon-api include directory, the path of the Node-API
module-definition file (`headers.def_paths.node_api_def`) and the host
platform (`process.platform`). -/
structure Ctx where
  cwd : String
  node : String
  zig : String
  napi : Option String := none
  nodeApiDef : String := "node_api.def"
  hostWindows : Bool := false
  hostMacos : Bool := false
deriving DecidableEq

/-- One compilation-database entry (type `CompilationDatabase`, in its
`arguments` variant, which is the one the code produces). -/
structure CompilationDatabase where
  directory : String
  arguments : List String
  file : String
deriving DecidableEq

/-- The error thrown for a Windows-family triple whose CPU segment is not
recognised (`throw new Error("Unsupported Windows target")`). -/
inductive BuildError where
  | unsupportedWindowsTarget
deriving DecidableEq

/-- Substring search on character data: does some suffix of `l` start
with `pat`? -/
def dataContains (pat : List Char) : List Char → Bool
  | [] => pat.isEmpty
  | a :: tl => pat.isPrefixOf (a :: tl) || dataContains pat tl

/-- JS `s.includes(pat)`: substring search, modelled on character data. -/
def strIncludes (s pat : String) : Bool :=
  dataContains pat.data s.data

/-- JS `s.split("-")[0]`: the prefix of `s` before the first dash. -/
def firstSeg (s : String) : String :=
  ⟨s.data.takeWhile (fun ch => !(ch == '-'))⟩

/-- JS truthiness of an optional string (absent and `""` are falsy). -/
def optTruthy : Option String → Bool
  | some s => !(s == "")
  | none => false

/-- `path.join a b`, modelled POSIX-style. -/
def jsPathJoin (a b : String) : String :=
  a ++ "/" ++ b

/-- Lines 182-186: the triple with the glibc version appended after a dot
when both are present and truthy. -/
def tripleStr (t : Target) : Option String :=
  match t.target with
  | none => none
  | some s =>
    if s = "" then some s
    else
      match t.glibc with
      | some g => if g = "" then some s else some (s ++ "." ++ g)
      | none => some s

/-- Line 188-189: the standard selects the C++ front end unless it is a
present, truthy string without a `++` marker (unspecified means C++). -/
def isCpp (t : Target) : Bool :=
  match t.std with
  | none => true
  | some s => strIncludes s "++"

/-- The language argument passed to zig (`"c++"` or `"cc"`). -/
def langName (t : Target) : String :=
  if isCpp t then "c++" else "cc"

/-- The raw compiler name used in compilation-database entries. -/
def clangName (t : Target) : String :=
  if isCpp t then "clang++" else "clang"

/-- Line 201: `target.type ?? "shared"`. -/
def effType (t : Target) : OutputType :=
  (t.type).getD OutputType.shared

/-- Line 258: `target.mode ?? "fast"`. -/
def effMode (t : Target) : OutputMode :=
  (t.mode).getD OutputMode.fast

/-- Line 211: the Windows special case applies when the (suffixed) triple
contains `"windows"`, or there is no truthy triple and the host is
Windows. -/
def isWin (t : Target) (c : Ctx) : Bool :=
  (match tripleStr t with
   | some s => strIncludes s "windows"
   | none => false)
  || (!(optTruthy (tripleStr t)) && c.hostWindows)

/-- Line 250: same shape for the macOS special case. -/
def isMac (t : Target) (c : Ctx) : Bool :=
  (match tripleStr t with
   | some s => strIncludes s "macos"
   | none => false)
  || (!(optTruthy (tripleStr t)) && c.hostMacos)

/-- A shared-library output hitting the Windows special case. -/
def winShared (t : Target) (c : Ctx) : Bool :=
  (effType t == OutputType.shared) && isWin t c

/-- Lines 220-243: machine-type derivation from the first dash-separated
segment of the triple; `none` models the thrown error. -/
def machineOf (seg : String) : Option String :=
  if seg = "x86_64" then some "i386:x86-64"
  else if seg = "aarch64" then some "arm64"
  else if seg = "x86" || seg = "i386" || seg = "i486" || seg = "i586" || seg = "i686" then
    some "i386"
  else none

/-- Line 214: the import library path `path.join(node, "node.lib")`. -/
def nodeLib (c : Ctx) : String :=
  jsPathJoin c.node "node.lib"

/-- Line 214: the base argument list of the dlltool invocation. -/
def dlltoolFlags (c : Ctx) : List String :=
  ["dlltool", "-d", c.nodeApiDef, "-l", nodeLib c]

/-- Line 249: on the Windows shared path the generated import library is
pushed onto the target's source list before the main compile step. -/
def effSources (t : Target) (c : Ctx) : List String :=
  t.sources ++ (if winShared t c then [nodeLib c] else [])

/-- Line 192: the base flags (language, output, PIC, as-needed). -/
def baseFlags (t : Target) : List String :=
  [langName t, "-o", t.output, "-fPIC", "-Wl,--as-needed"]

/-- Lines 194-196: `-target` plus the (suffixed) triple when truthy. -/
def targetFlags (t : Target) : List String :=
  match tripleStr t with
  | some s => if s = "" then [] else ["-target", s]
  | none => []

/-- Lines 197-199: `-mcpu` plus the CPU when truthy. -/
def cpuFlags (t : Target) : List String :=
  match t.cpu with
  | some s => if s = "" then [] else ["-mcpu", s]
  | none => []

/-- Lines 201-256: output-kind flags; `bin` and `static` add `-static`,
`shared` adds `-shared` plus, for macOS targets outside the Windows
branch, the dynamic-lookup linker flag. -/
def typeFlags (t : Target) (c : Ctx) : List String :=
  match effType t with
  | OutputType.bin => ["-static"]
  | OutputType.static => ["-static"]
  | OutputType.shared =>
    "-shared" ::
      (if isWin t c then []
       else if isMac t c then ["-Wl,-undefined,dynamic_lookup"]
       else [])

/-- Lines 258-271: optimisation flags (`-O2` for fast, `-Os` for small,
nothing for debug). -/
def modeFlags (t : Target) : List String :=
  match effMode t with
  | OutputMode.fast => ["-O2"]
  | OutputMode.small => ["-Os"]
  | OutputMode.debug => []

/-- Lines 273-275: the standard flag when present and truthy. -/
def stdFlags (t : Target) : List String :=
  match t.std with
  | some s => if s = "" then [] else ["-std=" ++ s]
  | none => []

/-- Lines 276-278: `-fno-exceptions` exactly when `exceptions === false`. -/
def excFlags (t : Target) : List String :=
  if t.exceptions == some false then ["-fno-exceptions"] else []

/-- Lines 280-287: the Node headers include, the optional node-addon-api
include, then the user include paths. -/
def includeFlags (t : Target) (c : Ctx) : List String :=
  ("-I" ++ c.node) ::
    ((match c.napi with
      | some p => if p = "" then [] else ["-I" ++ p]
      | none => []) ++
     t.includes.map (fun i => "-I" ++ i))

/-- Lines 289-291: linked libraries. -/
def libFlags (t : Target) : List String :=
  t.libraries.map (fun l => "-l" ++ l)

/-- Lines 292-294: library search paths. -/
def libSearchFlags (t : Target) : List String :=
  t.librariesSearch.map (fun l => "-L" ++ l)

/-- JS object spread of two define maps: the pre entries keep their place
with values overridden by the user map, then the user entries whose keys
are not in pre follow in order. -/
def objMerge (pre user : List (String × DefVal)) : List (String × DefVal) :=
  pre.map (fun p => (p.1, (user.lookup p.1).getD p.2)) ++
    user.filter (fun q => (pre.lookup q.1).isNone)

/-- Line 296: `target.defines ??= \x7b\x7d`. -/
def defines0 (t : Target) : List (String × DefVal) :=
  (t.defines).getD []

/-- Lines 297-300: synthesize the `NAPI_VERSION` define when the
Node-API version is truthy, letting user defines override it. -/
def withNapi (t : Target) (d : List (String × DefVal)) : List (String × DefVal) :=
  match t.napiVersion with
  | some v => if v = 0 then d else objMerge [("NAPI_VERSION", DefVal.num v)] d
  | none => d

/-- Lines 301-309: when exceptions are disabled, synthesize the two
node-addon-api defines, again letting user defines override them. -/
def withExc (t : Target) (d : List (String × DefVal)) : List (String × DefVal) :=
  if t.exceptions == some false then
    objMerge
      [("NAPI_DISABLE_CPP_EXCEPTIONS", DefVal.bool true),
       ("NODE_ADDON_API_ENABLE_MAYBE", DefVal.bool true)] d
  else d

/-- The define map after both merges (the value stored back into the
caller's `defines` field). -/
def effDefines (t : Target) : List (String × DefVal) :=
  withExc t (withNapi t (defines0 t))

/-- Lines 310-316: rendering of one define; `true` gives a bare define,
strings and numbers give `name=value`, `false` is dropped. -/
def defTok : String × DefVal → Option String
  | (n, DefVal.bool true) => some ("-D" ++ n)
  | (_, DefVal.bool false) => none
  | (n, DefVal.str s) => some ("-D" ++ n ++ "=" ++ s)
  | (n, DefVal.num v) => some ("-D" ++ n ++ "=" ++ toString v)

/-- The define-derived tokens in order. -/
def defineFlags (t : Target) : List String :=
  (effDefines t).filterMap defTok

/-- The token a numeric `NAPI_VERSION` define renders to. -/
def napiTok (n : Int) : String :=
  "-DNAPI_VERSION=" ++ toString n

/-- Specification of the decimal rendering of a natural number, used to
characterise the fuelled core printer: most significant digit first. -/
def decDigits (n : Nat) : List Char :=
  if n = 0 then ['0'] else ((Nat.digits 10 n).map Nat.digitChar).reverse

/-- Lines 318-325: framework flags, gated only on either frameworks field
being present (not on the triple family). -/
def fwFlags (t : Target) : List String :=
  if (t.frameworks).isSome || (t.frameworksSearch).isSome then
    ((t.frameworks).getD []).map (fun f => "-" ++ f) ++
      ((t.frameworksSearch).getD []).map (fun f => "-F" ++ f)
  else []

/-- Lines 327-332: linker rpath flags, gated only on the field being
present and truthy (not on the triple family). -/
def rpathFlags (t : Target) : List String :=
  match t.rpath with
  | some rs => rs.map (fun r => "-Wl,-rpath," ++ r)
  | none => []

/-- Lines 334-336: the verbose flag. -/
def verbFlags (t : Target) : List String :=
  if t.verbose then ["-v"] else []

/-- Lines 192-339: the complete synthesized argument list, in push
order, ending with the (possibly extended) source list. -/
def buildFlags (t : Target) (c : Ctx) : List String :=
  baseFlags t ++ targetFlags t ++ cpuFlags t ++ typeFlags t c ++ modeFlags t ++
    stdFlags t ++ excFlags t ++ includeFlags t c ++ libFlags t ++
    libSearchFlags t ++ defineFlags t ++ fwFlags t ++ rpathFlags t ++
    verbFlags t ++ t.cflags ++ effSources t c

/-- Every token of the argument list except the define-derived segment,
in order. -/
def nonDefineToks (t : Target) (c : Ctx) : List String :=
  baseFlags t ++ targetFlags t ++ cpuFlags t ++ typeFlags t c ++ modeFlags t ++
    stdFlags t ++ excFlags t ++ includeFlags t c ++ libFlags t ++
    libSearchFlags t ++ fwFlags t ++ rpathFlags t ++
    verbFlags t ++ t.cflags ++ effSources t c

/-- Every token of the argument list except the optimisation segment,
in order. -/
def nonModeToks (t : Target) (c : Ctx) : List String :=
  baseFlags t ++ targetFlags t ++ cpuFlags t ++ typeFlags t c ++
    stdFlags t ++ excFlags t ++ includeFlags t c ++ libFlags t ++
    libSearchFlags t ++ defineFlags t ++ fwFlags t ++ rpathFlags t ++
    verbFlags t ++ t.cflags ++ effSources t c

/-- JS `flags.slice(1, -n)`: all elements between the first one and the
last `n`; for `n = 0` the end index is `-0 = 0` and the slice is empty. -/
def jsSliceOneToNeg (l : List String) (n : Nat) : List String :=
  if n = 0 then [] else (l.drop 1).take (l.length - n - 1)

/-- Lines 342-347: one compilation-database entry per source file; the
arguments replace the leading language token by the raw compiler name and
drop the trailing source list. -/
def dbEntries (t : Target) (c : Ctx) : List CompilationDatabase :=
  (effSources t c).map fun s =>
    { directory := c.cwd
      arguments := clangName t :: jsSliceOneToNeg (buildFlags t c) (effSources t c).length
      file := s }

/-- The caller-visible state of the target configuration after
`buildOne` returns: `defines` has been replaced by the merged effective
map (line 296-309) and, on the Windows shared path, the import library
has been pushed onto `sources` (line 249). -/
def mutatedTarget (t : Target) (c : Ctx) : Target :=
  { t with sources := effSources t c, defines := some (effDefines t) }

/-- The outcome of `buildOne`: the main zig invocation's argument list,
the optional dlltool invocation (sequenced before the main one), the
compilation-database entries and the mutated caller configuration. -/
structure BuildResult where
  flags : List String
  aux : Option (List String)
  db : List CompilationDatabase
  finalTarget : Target
deriving DecidableEq

/-- The successful outcome shared by all non-throwing paths. -/
def mkResult (t : Target) (c : Ctx) (aux : Option (List String)) : BuildResult :=
  { flags := buildFlags t c
    aux := aux
    db := dbEntries t c
    finalTarget := mutatedTarget t c }

/-- Lines 172-350: per-target synthesis. On the Windows shared path with
a truthy triple the machine type is derived (throwing on unknown CPU
segments) and appended to the dlltool invocation; with no truthy triple
the dlltool invocation has no machine argument. -/
def buildOne (t : Target) (c : Ctx) : Except BuildError BuildResult :=
  if winShared t c && optTruthy (tripleStr t) then
    match machineOf (firstSeg ((tripleStr t).getD "")) with
    | none => Except.error BuildError.unsupportedWindowsTarget
    | some m => Except.ok (mkResult t c (some (dlltoolFlags c ++ ["-m", m])))
  else if winShared t c then
    Except.ok (mkResult t c (some (dlltoolFlags c)))
  else
    Except.ok (mkResult t c none)

/-- The `compilationDatabase` option: `boolean | string`. -/
inductive DbOption where
  | flag (b : Bool)
  | path (s : String)
deriving DecidableEq

/-- Lines 391-394: the file name the database is written to, when the
option is truthy (`true` selects the default name). -/
def dbFileName : DbOption → Option String
  | DbOption.flag false => none
  | DbOption.flag true => some "compile_commands.json"
  | DbOption.path s => if s = "" then none else some s

/-- Line 397: `db.filter((l, idx) => db.findIndex(r => eq(l, r)) === idx)`,
keeping an element exactly when its position is the first position
holding a structurally equal element. -/
def jsDedup {α : Type} [DecidableEq α] (db : List α) : List α :=
  ((db.enum.filter fun p => db.indexOf p.2 == p.1).map Prod.snd)

/-- The first rejection among the per-target pipeline outcomes
(`Promise.all` rejects as soon as any task rejects). -/
def firstErr (rs : List (Except Int Unit)) : Option Int :=
  rs.findSome? fun r =>
    match r with
    | Except.error e => some e
    | Except.ok _ => none

/-- Lines 389-399: the tail of `build` after the per-target results and
the accumulated database are in hand. `await Promise.all` surfaces the
first rejection, skipping the database write entirely; on success the
deduplicated database is written to the joined path when requested.
The first component is the performed write (path and content), the
second the overall outcome. -/
def buildFinish (rs : List (Except Int Unit)) (db : List CompilationDatabase)
    (opt : DbOption) (cwd : String) :
    Option (String × List CompilationDatabase) × Except Int Unit :=
  match firstErr rs with
  | some e => (none, Except.error e)
  | none => ((dbFileName opt).map (fun n => (jsPathJoin cwd n, jsDedup db)), Except.ok ())

/-! Concrete configurations used by witnesses and counterexamples. -/

/-- A minimal context: working directory, Node headers and zig binary. -/
def ctxW : Ctx := { cwd := "/w", node := "/node", zig := "zig" }

/-- A default target (shared library, fast mode) with one source. -/
def tDefault : Target := { output := "x.so", sources := ["a.cc"] }

/-- An executable-output target. -/
def tBin : Target := { output := "x", sources := ["a.cc"], type := some OutputType.bin }

/-- A Windows-triple shared target. -/
def tWin : Target := { output := "x.dll", sources := ["a.cc"], target := some "x86_64-windows" }

/-- A Windows-triple shared target with an rpath (platform mismatch). -/
def tWinRpath : Target :=
  { output := "x.dll", sources := ["a.cc"], target := some "x86_64-windows",
    rpath := some ["/r"] }

/-- A GNU-triple target with frameworks (platform mismatch). -/
def tGnuFw : Target :=
  { output := "x.so", sources := ["a.cc"], target := some "x86_64-linux-gnu",
    frameworks := some ["Cocoa"] }

/-- A GNU-triple target pinning glibc 2.17. -/
def tGlibc : Target :=
  { output := "x.so", sources := ["a.cc"], target := some "x86_64-linux-gnu",
    glibc := some "2.17" }

/-- A target with a truthy Node-API version and a user override define. -/
def tNapi : Target :=
  { output := "x.so", sources := ["a.cc"], napiVersion := some 8,
    defines := some [("NAPI_VERSION", DefVal.num 9)] }

/-- A target whose Node-API version is the falsy number 0. -/
def tNapiZero : Target :=
  { output := "x.so", sources := ["a.cc"], napiVersion := some 0 }

/-- A sample compilation-database entry. -/
def dbE1 : CompilationDatabase :=
  { directory := "/w", arguments := ["clang", "-O2"], file := "a.cc" }

/-- A second, distinct compilation-database entry. -/
def dbE2 : CompilationDatabase :=
  { directory := "/w", arguments := ["clang", "-O2"], file := "b.cc" }

/-!  General lemmas about the embedding. -/

theorem buildOne_ok {t : Target} {c : Ctx} {r : BuildResult}
    (h : buildOne t c = Except.ok r) :
    r.flags = buildFlags t c ∧ r.db = dbEntries t c ∧ r.finalTarget = mutatedTarget t c := by
  unfold buildOne at h
  split at h
  · split at h
    · cases h
    · cases h
      exact ⟨rfl, rfl, rfl⟩
  · split at h <;> (cases h; exact ⟨rfl, rfl, rfl⟩)

theorem count_buildFlags_defines (t : Target) (c : Ctx) (tok : String) :
    (buildFlags t c).count tok
      = (nonDefineToks t c).count tok + (defineFlags t).count tok := by
  simp [buildFlags, nonDefineToks, List.count_append]
  omega

theorem count_buildFlags_mode (t : Target) (c : Ctx) (tok : String) :
    (buildFlags t c).count tok
      = (nonModeToks t c).count tok + (modeFlags t).count tok := by
  simp [buildFlags, nonModeToks, List.count_append]
  omega

theorem firstErr_eq_none {rs : List (Except Int Unit)} (h : firstErr rs = none) :
    ∀ r ∈ rs, r.isOk = true := by
  intro r hr
  rw [firstErr, List.findSome?_eq_none_iff] at h
  have := h r hr
  cases r
  · simp at this
  · rfl

/-! Claim C10. -/

/-- Claim C10: every successful synthesis puts the
position-independent-code flag `-fPIC` in the argument list, for every
output kind (bin and static included). -/
theorem claim10_fpic_always (t : Target) (c : Ctx) (r : BuildResult)
    (hok : buildOne t c = Except.ok r) : "-fPIC" ∈ r.flags := by
  rw [(buildOne_ok hok).1]
  simp [buildFlags, baseFlags]

/-- Witness for claim C10 at an executable-output target. -/
theorem claim10_witness :
    "-fPIC" ∈ (mkResult tBin ctxW none).flags :=
  claim10_fpic_always tBin ctxW (mkResult tBin ctxW none) rfl

/-! Claim C4. -/

/-- Claim C4: fast mode emits `-O2` and never `-O3`; small mode emits
`-Os`; debug mode adds no optimisation flag (the argument list is
exactly the mode-independent token list). -/
theorem claim4_optimization_flags (t : Target) (c : Ctx) (r : BuildResult)
    (hok : buildOne t c = Except.ok r) (h3 : "-O3" ∉ nonModeToks t c) :
    (effMode t = OutputMode.fast → "-O2" ∈ r.flags ∧ "-O3" ∉ r.flags)
    ∧ (effMode t = OutputMode.small → "-Os" ∈ r.flags)
    ∧ (effMode t = OutputMode.debug → r.flags = nonModeToks t c) := by
  rw [(buildOne_ok hok).1]
  refine ⟨fun hm => ⟨?_, ?_⟩, fun hm => ?_, fun hm => ?_⟩
  · rw [← List.count_pos_iff, count_buildFlags_mode, modeFlags, hm]
    simp
  · rw [← List.count_eq_zero, count_buildFlags_mode, modeFlags, hm]
    rw [List.count_eq_zero.mpr h3]
    simp
  · rw [← List.count_pos_iff, count_buildFlags_mode, modeFlags, hm]
    simp
  · simp [buildFlags, nonModeToks, modeFlags, hm]

/-- Witness for claim C4 at a default (fast-mode) target. -/
theorem claim4_witness :
    "-O2" ∈ (mkResult tDefault ctxW none).flags
    ∧ "-O3" ∉ (mkResult tDefault ctxW none).flags :=
  (claim4_optimization_flags tDefault ctxW (mkResult tDefault ctxW none) rfl
    (by decide)).1 rfl

/-! Claim C9. -/

/-- Claim C9 counterexample: on a Windows-triple shared target,
`buildOne` mutates the caller's configuration: the import library is
appended to `sources` and `defines` is replaced (filled to the empty
map here), so the configuration differs from its pre-call value. -/
theorem claim9_counterexample :
    ∃ r, buildOne tWin ctxW = Except.ok r
      ∧ r.finalTarget.sources ≠ tWin.sources
      ∧ r.finalTarget.defines ≠ tWin.defines := by
  refine ⟨mkResult tWin ctxW (some (dlltoolFlags ctxW ++ ["-m", "i386:x86-64"])), rfl, ?_, ?_⟩
  · decide
  · decide

/-- Claim C9 amended: synthesis does mutate the caller-supplied
configuration, but in exactly two ways: `defines` is replaced by the
merged effective define map, and on the Windows shared path the import
library is appended to `sources`; all other fields are unchanged. -/
theorem claim9_mutation_frame (t : Target) (c : Ctx) (r : BuildResult)
    (hok : buildOne t c = Except.ok r) :
    r.finalTarget.defines = some (effDefines t)
    ∧ r.finalTarget.sources = t.sources ++ (if winShared t c then [nodeLib c] else [])
    ∧ r.finalTarget.output = t.output
    ∧ r.finalTarget.target = t.target
    ∧ r.finalTarget.type = t.type
    ∧ r.finalTarget.mode = t.mode
    ∧ r.finalTarget.cflags = t.cflags
    ∧ r.finalTarget.includes = t.includes := by
  rw [(buildOne_ok hok).2.2]
  exact ⟨rfl, rfl, rfl, rfl, rfl, rfl, rfl, rfl⟩

/-- Witness for the amended claim C9 at a Windows-triple shared target. -/
theorem claim9_witness :
    (mkResult tWin ctxW (some (dlltoolFlags ctxW ++ ["-m", "i386:x86-64"]))).finalTarget.sources
      = tWin.sources ++ (if winShared tWin ctxW then [nodeLib ctxW] else []) :=
  (claim9_mutation_frame tWin ctxW
    (mkResult tWin ctxW (some (dlltoolFlags ctxW ++ ["-m", "i386:x86-64"]))) rfl).2.1

/-! Claim C1. -/

/-- Claim C1 (divergence evaluation): at a default shared fast-mode
target, every compilation-database entry's arguments keep the
output-kind flag `-shared` and the optimisation flag `-O2` (only the
leading language token is replaced by the raw compiler name and the
trailing sources are dropped), contradicting the spec's compiler-only
view. -/
theorem claim1_db_divergence :
    (buildOne tDefault ctxW).map (fun r => r.db.map (fun e => e.arguments))
      = Except.ok [["clang++", "-o", "x.so", "-fPIC", "-Wl,--as-needed",
                    "-shared", "-O2", "-I/node"]]
    ∧ (buildOne tDefault ctxW).map
        (fun r => r.db.all (fun e =>
          e.arguments.contains "-shared" && e.arguments.contains "-O2"))
      = Except.ok true := by
  exact ⟨rfl, rfl⟩

/-! Claim C2. -/

/-- Claim C2 counterexample: with compilation-database output requested
(path "db.json", which `dbFileName` accepts) and one failed pipeline,
the orchestrator performs no write at all and surfaces the rejection —
the spec's claim that the partial database is still written fails. -/
theorem claim2_counterexample :
    buildFinish [Except.error 2] [dbE1] (DbOption.path "db.json") "/w"
      = (none, Except.error 2)
    ∧ dbFileName (DbOption.path "db.json") = some "db.json" :=
  ⟨rfl, rfl⟩

/-- Claim C2 amended: whenever any pipeline outcome is a rejection, the
orchestrator writes nothing — whether or not database output was
requested — and the overall call fails; the database is only written
when every pipeline succeeded. -/
theorem claim2_no_write_on_failure (rs : List (Except Int Unit))
    (db : List CompilationDatabase) (opt : DbOption) (cwd : String)
    (h : ¬ ∀ r ∈ rs, r.isOk = true) :
    (buildFinish rs db opt cwd).1 = none
    ∧ (buildFinish rs db opt cwd).2.isOk = false := by
  cases hfe : firstErr rs with
  | some e => simp [buildFinish, hfe, Except.isOk, Except.toBool]
  | none => exact absurd (firstErr_eq_none hfe) h

/-- Witness for the amended claim C2: one failing pipeline with a
requested database path yields no write and a failing outcome. -/
theorem claim2_witness :
    (buildFinish [Except.error 2, Except.ok ()] [dbE1] (DbOption.flag true) "/w").1 = none
    ∧ (buildFinish [Except.error 2, Except.ok ()] [dbE1] (DbOption.flag true) "/w").2.isOk
        = false :=
  claim2_no_write_on_failure [Except.error 2, Except.ok ()] [dbE1]
    (DbOption.flag true) "/w" (by decide)

/-! Claim C7. -/

theorem str_append_ne_empty {s : String} (x : String) (h : s ≠ "") : s ++ x ≠ "" := by
  intro he
  apply h
  have hd := congrArg String.data he
  rw [String.data_append] at hd
  apply String.ext
  exact (List.append_eq_nil.mp hd).1

/-- Claim C7: on a GNU-family triple, a set (truthy) glibc version is
appended to the triple after a dot in the token following `-target`, so
the compiled triple string ends with the dotted version; with no glibc
field the triple is passed unchanged. -/
theorem claim7_glibc_suffix (t : Target) (c : Ctx) (r : BuildResult) (s : String)
    (hok : buildOne t c = Except.ok r) (ht : t.target = some s) (hs : s ≠ "")
    (_hgnu : strIncludes s "gnu" = true) :
    match t.glibc with
    | some g =>
      g ≠ "" →
        (∃ pre post, r.flags = pre ++ ["-target", s ++ "." ++ g] ++ post)
        ∧ ("." ++ g).data.IsSuffix (s ++ "." ++ g).data
    | none => ∃ pre post, r.flags = pre ++ ["-target", s] ++ post := by
  rw [(buildOne_ok hok).1]
  cases hg : t.glibc with
  | some g =>
    intro hgne
    have htr : tripleStr t = some (s ++ "." ++ g) := by
      simp [tripleStr, ht, hs, hg, hgne]
    constructor
    · refine ⟨baseFlags t,
        cpuFlags t ++ typeFlags t c ++ modeFlags t ++ stdFlags t ++ excFlags t ++
          includeFlags t c ++ libFlags t ++ libSearchFlags t ++ defineFlags t ++
          fwFlags t ++ rpathFlags t ++ verbFlags t ++ t.cflags ++ effSources t c, ?_⟩
      have htf : targetFlags t = ["-target", s ++ "." ++ g] := by
        have hne : s ++ "." ++ g ≠ "" :=
          str_append_ne_empty g (str_append_ne_empty "." hs)
        simp [targetFlags, htr, hne]
      simp [buildFlags, htf, List.append_assoc]
    · refine ⟨s.data, ?_⟩
      simp [String.data_append, List.append_assoc]
  | none =>
    have htr : tripleStr t = some s := by simp [tripleStr, ht, hs, hg]
    refine ⟨baseFlags t,
      cpuFlags t ++ typeFlags t c ++ modeFlags t ++ stdFlags t ++ excFlags t ++
        includeFlags t c ++ libFlags t ++ libSearchFlags t ++ defineFlags t ++
        fwFlags t ++ rpathFlags t ++ verbFlags t ++ t.cflags ++ effSources t c, ?_⟩
    have htf : targetFlags t = ["-target", s] := by simp [targetFlags, htr, hs]
    simp [buildFlags, htf, List.append_assoc]

/-- Witness for claim C7: glibc 2.17 on a GNU triple puts
`x86_64-linux-gnu.2.17` after `-target`, and that string ends in
`.2.17`. -/
theorem claim7_witness :
    (∃ pre post, (mkResult tGlibc ctxW none).flags
        = pre ++ ["-target", "x86_64-linux-gnu" ++ "." ++ "2.17"] ++ post)
    ∧ ("." ++ "2.17").data.IsSuffix ("x86_64-linux-gnu" ++ "." ++ "2.17").data :=
  claim7_glibc_suffix tGlibc ctxW (mkResult tGlibc ctxW none) "x86_64-linux-gnu"
    rfl rfl (by decide) (by decide) (by decide)

/-! Claim C8. -/

theorem mem_buildFlags_of_fw {t : Target} {c : Ctx} {a : String}
    (h : a ∈ fwFlags t) : a ∈ buildFlags t c := by
  simp only [buildFlags, List.mem_append]
  tauto

theorem mem_buildFlags_of_rpath {t : Target} {c : Ctx} {a : String}
    (h : a ∈ rpathFlags t) : a ∈ buildFlags t c := by
  simp only [buildFlags, List.mem_append]
  tauto

/-- Claim C8 counterexample: a GNU (non-macOS) triple with a frameworks
field still produces the framework token, and a Windows triple with an
rpath field still produces the linker rpath token — the
platform-conditional fields are not rejected or ignored on mismatched
triple families. -/
theorem claim8_counterexample :
    ((buildOne tGnuFw ctxW).map fun r => r.flags.contains "-Cocoa") = Except.ok true
    ∧ ((buildOne tWinRpath ctxW).map fun r => r.flags.contains "-Wl,-rpath,/r")
        = Except.ok true
    ∧ strIncludes "x86_64-linux-gnu" "macos" = false
    ∧ strIncludes "x86_64-windows" "windows" = true :=
  ⟨rfl, rfl, rfl, rfl⟩

/-- Claim C8 amended: the frameworks and rpath fields are gated only on
field presence, not on the triple family: whenever `frameworks` is
present every framework token appears in the argument list, and whenever
`rpath` is present every linker rpath token appears, regardless of the
target triple. -/
theorem claim8_presence_gated (t : Target) (c : Ctx) (r : BuildResult)
    (fl rl : List String) (hok : buildOne t c = Except.ok r) :
    (t.frameworks = some fl → ∀ f ∈ fl, ("-" ++ f) ∈ r.flags)
    ∧ (t.rpath = some rl → ∀ x ∈ rl, ("-Wl,-rpath," ++ x) ∈ r.flags) := by
  rw [(buildOne_ok hok).1]
  constructor
  · intro hfw f hf
    apply mem_buildFlags_of_fw
    simp [fwFlags, hfw, List.mem_append, List.mem_map]
    exact Or.inl ⟨f, hf, rfl⟩
  · intro hrp x hx
    apply mem_buildFlags_of_rpath
    simp [rpathFlags, hrp, List.mem_map]
    exact ⟨x, hx, rfl⟩

/-- Claim C5: for a shared-library target with a Windows-family triple,
the import-library machine name passed to the dlltool invocation is
derived from the first dash-separated segment exactly as specified
(x86_64 to i386:x86-64, aarch64 to arm64, the ix86 variants to i386),
and any other first segment fails with the unsupported-Windows-target
error. -/
theorem claim5_windows_machine (t : Target) (c : Ctx) (s : String)
    (ht : tripleStr t = some s) (hwin : strIncludes s "windows" = true)
    (hty : effType t = OutputType.shared) :
    (firstSeg s = "x86_64" →
      buildOne t c
        = Except.ok (mkResult t c (some (dlltoolFlags c ++ ["-m", "i386:x86-64"]))))
    ∧ (firstSeg s = "aarch64" →
      buildOne t c
        = Except.ok (mkResult t c (some (dlltoolFlags c ++ ["-m", "arm64"]))))
    ∧ ((firstSeg s = "x86" ∨ firstSeg s = "i386" ∨ firstSeg s = "i486"
        ∨ firstSeg s = "i586" ∨ firstSeg s = "i686") →
      buildOne t c
        = Except.ok (mkResult t c (some (dlltoolFlags c ++ ["-m", "i386"]))))
    ∧ (firstSeg s ∉ ["x86_64", "aarch64", "x86", "i386", "i486", "i586", "i686"] →
      buildOne t c = Except.error BuildError.unsupportedWindowsTarget) := by
  have hs : s ≠ "" := by
    intro he
    rw [he] at hwin
    exact absurd hwin (by decide)
  have hw : winShared t c = true := by
    simp [winShared, hty, isWin, ht, hwin]
  have htr : optTruthy (tripleStr t) = true := by
    simp [optTruthy, ht, hs]
  have htr2 : optTruthy (some s) = true := by
    simp [optTruthy, hs]
  refine ⟨fun hseg => ?_, fun hseg => ?_, fun hseg => ?_, fun hseg => ?_⟩
  · simp [buildOne, hw, htr, ht, htr2, hseg, machineOf]
  · simp [buildOne, hw, htr, ht, htr2, hseg, machineOf]
  · rcases hseg with h | h | h | h | h <;> simp [buildOne, hw, htr, ht, htr2, h, machineOf]
  · have hm : machineOf (firstSeg s) = none := by
      simp only [List.mem_cons, not_or] at hseg
      obtain ⟨h1, h2, h3, h4, h5, h6, h7, -⟩ := hseg
      simp [machineOf, h1, h2, h3, h4, h5, h6, h7]
    simp [buildOne, hw, htr, ht, htr2, hm]

/-- Witness for claim C5: the x86_64 Windows triple produces the
i386:x86-64 machine argument on the dlltool invocation. -/
theorem claim5_witness :
    buildOne tWin ctxW
      = Except.ok (mkResult tWin ctxW (some (dlltoolFlags ctxW ++ ["-m", "i386:x86-64"]))) :=
  (claim5_windows_machine tWin ctxW "x86_64-windows" rfl (by decide) rfl).1 (by decide)

/-! Decimal rendering is injective (needed to separate the tokens two
distinct Node-API version numbers render to). -/

theorem decDigits_step {n : Nat} (h0 : n / 10 ≠ 0) :
    decDigits n = decDigits (n / 10) ++ [Nat.digitChar (n % 10)] := by
  have hn : n ≠ 0 := by
    intro h
    subst h
    simp at h0
  unfold decDigits
  rw [if_neg hn, if_neg h0,
    Nat.digits_def' (by norm_num : (1 : Nat) < 10) (Nat.pos_of_ne_zero hn)]
  simp

theorem toDigitsCore_eq :
    ∀ (fuel n : Nat) (acc : List Char), n < fuel →
      Nat.toDigitsCore 10 fuel n acc = decDigits n ++ acc := by
  intro fuel
  induction fuel with
  | zero => intro n acc h; omega
  | succ f ih =>
    intro n acc h
    unfold Nat.toDigitsCore
    by_cases h0 : n / 10 = 0
    · rw [if_pos h0]
      have hn10 : n < 10 := by omega
      by_cases hn : n = 0
      · subst hn
        simp [decDigits]
        decide
      · have hd : Nat.digits 10 n = [n % 10] := by
          rw [Nat.digits_def' (by norm_num : (1 : Nat) < 10) (Nat.pos_of_ne_zero hn), h0]
          simp
        simp [decDigits, hn, hd]
    · rw [if_neg h0]
      have hn : n ≠ 0 := by
        intro he
        subst he
        simp at h0
      have hlt : n / 10 < f :=
        lt_of_lt_of_le (Nat.div_lt_self (Nat.pos_of_ne_zero hn) (by norm_num))
          (Nat.le_of_lt_succ h)
      rw [ih (n / 10) _ hlt, decDigits_step h0]
      simp

theorem natRepr_eq (n : Nat) : Nat.repr n = (decDigits n).asString := by
  unfold Nat.repr Nat.toDigits
  rw [toDigitsCore_eq (n + 1) n [] (Nat.lt_succ_self n)]
  simp

theorem digitChar_lt_inj :
    ∀ d, d < 10 → ∀ e, e < 10 → Nat.digitChar d = Nat.digitChar e → d = e := by
  decide

theorem digitChar_lt_ne_dash : ∀ d, d < 10 → Nat.digitChar d ≠ '-' := by
  decide

theorem mem_decDigits {n : Nat} {ch : Char} (h : ch ∈ decDigits n) :
    ∃ d, d < 10 ∧ ch = Nat.digitChar d := by
  unfold decDigits at h
  split at h
  · refine ⟨0, by norm_num, ?_⟩
    simpa using h
  · rw [List.mem_reverse, List.mem_map] at h
    obtain ⟨d, hd, hch⟩ := h
    exact ⟨d, Nat.digits_lt_base (by norm_num) hd, hch.symm⟩

theorem decDigits_ne_nil (n : Nat) : decDigits n ≠ [] := by
  unfold decDigits
  split
  · simp
  · simp only [ne_eq, List.reverse_eq_nil_iff, List.map_eq_nil_iff]
    exact Nat.digits_ne_nil_iff_ne_zero.mpr (by assumption)

theorem map_digitChar_inj :
    ∀ (l1 l2 : List Nat), (∀ a ∈ l1, a < 10) → (∀ a ∈ l2, a < 10) →
      l1.map Nat.digitChar = l2.map Nat.digitChar → l1 = l2 := by
  intro l1
  induction l1 with
  | nil =>
    intro l2 _ _ h
    cases l2
    · rfl
    · simp at h
  | cons a l ih =>
    intro l2 h1 h2 h
    cases l2 with
    | nil => simp at h
    | cons b m =>
      simp only [List.map_cons, List.cons.injEq] at h
      have ha : a = b :=
        digitChar_lt_inj a (h1 a (List.mem_cons_self a l)) b
          (h2 b (List.mem_cons_self b m)) h.1
      have hm : l = m :=
        ih m (fun x hx => h1 x (List.mem_cons_of_mem a hx))
          (fun x hx => h2 x (List.mem_cons_of_mem b hx)) h.2
      rw [ha, hm]

theorem decDigits_zero_ne {n : Nat} (hn : n ≠ 0) : decDigits 0 ≠ decDigits n := by
  intro h
  unfold decDigits at h
  rw [if_pos rfl, if_neg hn] at h
  have hlen := congrArg List.length h
  simp only [List.length_cons, List.length_nil, List.length_reverse,
    List.length_map] at hlen
  obtain ⟨d, hd⟩ := List.length_eq_one.mp hlen.symm
  rw [hd] at h
  simp only [List.map_cons, List.map_nil, List.reverse_cons, List.reverse_nil,
    List.nil_append, List.cons.injEq] at h
  have hdlt : d < 10 :=
    Nat.digits_lt_base (by norm_num) (by rw [hd]; exact List.mem_cons_self d [])
  have hd0 : d = 0 := (digitChar_lt_inj 0 (by norm_num) d hdlt h.1).symm
  have hzero := congrArg (Nat.ofDigits 10) hd
  rw [Nat.ofDigits_digits, hd0] at hzero
  simp [Nat.ofDigits] at hzero
  exact hn hzero

theorem decDigits_inj {m n : Nat} (h : decDigits m = decDigits n) : m = n := by
  by_cases hm : m = 0 <;> by_cases hn : n = 0
  · rw [hm, hn]
  · exact absurd (hm ▸ h) (decDigits_zero_ne hn)
  · exact absurd (hn ▸ h.symm) (decDigits_zero_ne hm)
  · unfold decDigits at h
    rw [if_neg hm, if_neg hn] at h
    have h' := List.reverse_injective h
    have hd : Nat.digits 10 m = Nat.digits 10 n :=
      map_digitChar_inj _ _
        (fun a ha => Nat.digits_lt_base (by norm_num) ha)
        (fun a ha => Nat.digits_lt_base (by norm_num) ha) h'
    have := congrArg (Nat.ofDigits 10) hd
    rwa [Nat.ofDigits_digits, Nat.ofDigits_digits] at this

theorem natRepr_inj {m n : Nat} (h : Nat.repr m = Nat.repr n) : m = n := by
  rw [natRepr_eq, natRepr_eq] at h
  apply decDigits_inj
  have := congrArg String.data h
  simpa [List.asString] using this

theorem int_toString_ofNat (m : Nat) : toString (Int.ofNat m) = Nat.repr m := rfl

theorem int_toString_negSucc (m : Nat) :
    toString (Int.negSucc m) = "-" ++ Nat.repr (m + 1) := rfl

theorem natRepr_data_ne_dash_cons (m : Nat) (l : List Char) :
    (Nat.repr m).data ≠ '-' :: l := by
  intro h
  rw [natRepr_eq] at h
  have hd : decDigits m = '-' :: l := by
    simpa [List.asString] using h
  have hmem : '-' ∈ decDigits m := by
    rw [hd]
    exact List.mem_cons_self _ _
  obtain ⟨d, hdlt, hch⟩ := mem_decDigits hmem
  exact digitChar_lt_ne_dash d hdlt hch.symm

theorem int_toString_inj {a b : Int} (h : toString a = toString b) : a = b := by
  cases a with
  | ofNat m =>
    cases b with
    | ofNat k =>
      rw [int_toString_ofNat, int_toString_ofNat] at h
      exact congrArg Int.ofNat (natRepr_inj h)
    | negSucc k =>
      rw [int_toString_ofNat, int_toString_negSucc] at h
      have hdata := congrArg String.data h
      rw [String.data_append] at hdata
      exact absurd hdata (by apply natRepr_data_ne_dash_cons)
  | negSucc m =>
    cases b with
    | ofNat k =>
      rw [int_toString_negSucc, int_toString_ofNat] at h
      have hdata := congrArg String.data h
      rw [String.data_append] at hdata
      exact absurd hdata.symm (by apply natRepr_data_ne_dash_cons)
    | negSucc k =>
      rw [int_toString_negSucc, int_toString_negSucc] at h
      have hdata := congrArg String.data h
      rw [String.data_append, String.data_append] at hdata
      have hrepr : (Nat.repr (m + 1)).data = (Nat.repr (k + 1)).data :=
        List.append_cancel_left hdata
      have hmk := natRepr_inj (String.ext hrepr)
      have : m = k := by omega
      rw [this]

theorem napiTok_inj {a b : Int} (h : napiTok a = napiTok b) : a = b := by
  unfold napiTok at h
  have hdata := congrArg String.data h
  rw [String.data_append, String.data_append] at hdata
  exact int_toString_inj (String.ext (List.append_cancel_left hdata))

/-! Claim C3: the structure of the merged define map. -/

theorem objMerge_single (k : String) (dv : DefVal) (user : List (String × DefVal)) :
    objMerge [(k, dv)] user
      = (k, (user.lookup k).getD dv) :: user.filter (fun q => !(q.1 == k)) := by
  unfold objMerge
  simp only [List.map_cons, List.map_nil, List.singleton_append, List.cons.injEq,
    true_and]
  apply List.filter_congr
  intro q _
  cases h1 : q.1 == k <;> simp [List.lookup, h1]

theorem objMerge_pair (k1 k2 : String) (v1 v2 : DefVal) (user : List (String × DefVal)) :
    objMerge [(k1, v1), (k2, v2)] user
      = (k1, (user.lookup k1).getD v1) :: (k2, (user.lookup k2).getD v2) ::
          user.filter (fun q => !(q.1 == k1) && !(q.1 == k2)) := by
  unfold objMerge
  simp only [List.map_cons, List.map_nil, List.cons_append, List.nil_append,
    List.cons.injEq, true_and]
  apply List.filter_congr
  intro q _
  cases h1 : q.1 == k1 <;> cases h2 : q.1 == k2 <;> simp [List.lookup, h1, h2]

theorem effDefines_shape (t : Target) (v : Int) (w : DefVal)
    (hv : t.napiVersion = some v) (hv0 : v ≠ 0)
    (hw : (defines0 t).lookup "NAPI_VERSION" = some w
      ∨ ((defines0 t).lookup "NAPI_VERSION" = none ∧ w = DefVal.num v)) :
    ∃ A B, effDefines t = A ++ ("NAPI_VERSION", w) :: B
      ∧ (∀ p ∈ A, p.1 ≠ "NAPI_VERSION") ∧ (∀ p ∈ B, p.1 ≠ "NAPI_VERSION") := by
  have hm1 : withNapi t (defines0 t)
      = ("NAPI_VERSION", w) ::
          (defines0 t).filter (fun q => !(q.1 == "NAPI_VERSION")) := by
    unfold withNapi
    rw [hv]
    dsimp only
    rw [if_neg hv0, objMerge_single]
    rcases hw with h | ⟨h, hwv⟩
    · simp [h]
    · simp [h, hwv]
  have hrest : ∀ p ∈ (defines0 t).filter (fun q => !(q.1 == "NAPI_VERSION")),
      p.1 ≠ "NAPI_VERSION" := by
    intro p hp
    have := (List.mem_filter.mp hp).2
    simpa using this
  unfold effDefines withExc
  rw [hm1]
  cases he : (t.exceptions == some false) with
  | false =>
    simp only [Bool.false_eq_true, if_false]
    exact ⟨[], _, rfl, by intro p hp; simp at hp, hrest⟩
  | true =>
    simp only [if_true]
    rw [objMerge_pair, List.filter_cons_of_pos (by simp)]
    refine ⟨[("NAPI_DISABLE_CPP_EXCEPTIONS", _), ("NODE_ADDON_API_ENABLE_MAYBE", _)],
      _, rfl, ?_, ?_⟩
    · intro p hp
      simp only [List.mem_cons, List.not_mem_nil, or_false] at hp
      rcases hp with h | h <;> (rw [h]; simp)
    · intro p hp
      exact hrest p (List.mem_of_mem_filter hp)

theorem count_filterMap_defTok_zero (l : List (String × DefVal)) (tok : String)
    (h : ∀ p ∈ l, defTok p ≠ some tok) :
    (l.filterMap defTok).count tok = 0 := by
  rw [List.count_eq_zero]
  intro hmem
  obtain ⟨p, hp, hd⟩ := List.mem_filterMap.mp hmem
  exact h p hp hd

theorem count_filterMap_defTok_one (A B : List (String × DefVal))
    (k tok : String) (v : DefVal)
    (hmid : defTok (k, v) = some tok)
    (hA : ∀ p ∈ A, defTok p ≠ some tok) (hB : ∀ p ∈ B, defTok p ≠ some tok) :
    ((A ++ (k, v) :: B).filterMap defTok).count tok = 1 := by
  rw [List.filterMap_append, List.filterMap_cons, hmid]
  rw [List.count_append]
  rw [count_filterMap_defTok_zero A tok hA]
  simp [List.count_cons, count_filterMap_defTok_zero B tok hB]

/-- Claim C3 counterexample: with `napiVersion` set to the (falsy)
number 0 and no user define named `NAPI_VERSION`, no
`-DNAPI_VERSION=0` token is emitted at all, although the claim requires
it exactly once for every set version. -/
theorem claim3_counterexample :
    tNapiZero.napiVersion = some 0
    ∧ (defines0 tNapiZero).lookup "NAPI_VERSION" = none
    ∧ (buildOne tNapiZero ctxW).map (fun r => r.flags.count (napiTok 0))
        = Except.ok 0 :=
  ⟨rfl, rfl, rfl⟩

/-- Claim C3 amended: for a truthy (nonzero) `napiVersion` v, if the
user supplied a numeric define named `NAPI_VERSION` with value w, the
argument list contains `-DNAPI_VERSION=w` exactly once and, when w and v
differ, no token derived from v; if no user define named `NAPI_VERSION`
exists, `-DNAPI_VERSION=v` appears exactly once (the `w = v` side of the
case hypothesis). The stray-token hypotheses pin down that no other
configuration field happens to spell the same token. -/
theorem claim3_napi_define_once (t : Target) (c : Ctx) (r : BuildResult) (v wi : Int)
    (hok : buildOne t c = Except.ok r)
    (hv : t.napiVersion = some v) (hv0 : v ≠ 0)
    (hcase : (defines0 t).lookup "NAPI_VERSION" = some (DefVal.num wi)
      ∨ ((defines0 t).lookup "NAPI_VERSION" = none ∧ wi = v))
    (hsw : napiTok wi ∉ nonDefineToks t c)
    (hsv : napiTok v ∉ nonDefineToks t c)
    (hdw : ∀ p ∈ effDefines t, p.1 ≠ "NAPI_VERSION" → defTok p ≠ some (napiTok wi))
    (hdv : ∀ p ∈ effDefines t, p.1 ≠ "NAPI_VERSION" → defTok p ≠ some (napiTok v)) :
    r.flags.count (napiTok wi) = 1 ∧ (wi ≠ v → napiTok v ∉ r.flags) := by
  have hcase' : (defines0 t).lookup "NAPI_VERSION" = some (DefVal.num wi)
      ∨ ((defines0 t).lookup "NAPI_VERSION" = none
          ∧ DefVal.num wi = DefVal.num v) := by
    rcases hcase with h | ⟨h, hwv⟩
    · exact Or.inl h
    · exact Or.inr ⟨h, by rw [hwv]⟩
  obtain ⟨A, B, hshape, hA, hB⟩ :=
    effDefines_shape t v (DefVal.num wi) hv hv0 hcase'
  have hmemA : ∀ p ∈ A, p ∈ effDefines t := by
    intro p hp
    rw [hshape]
    exact List.mem_append_left _ hp
  have hmemB : ∀ p ∈ B, p ∈ effDefines t := by
    intro p hp
    rw [hshape]
    exact List.mem_append_right _ (List.mem_cons_of_mem _ hp)
  rw [(buildOne_ok hok).1]
  constructor
  · rw [count_buildFlags_defines, List.count_eq_zero.mpr hsw]
    rw [defineFlags, hshape]
    rw [count_filterMap_defTok_one A B "NAPI_VERSION" (napiTok wi) (DefVal.num wi)
      (by simp [defTok, napiTok])
      (fun p hp => hdw p (hmemA p hp) (hA p hp))
      (fun p hp => hdw p (hmemB p hp) (hB p hp))]
  · intro hwv
    rw [← List.count_eq_zero, count_buildFlags_defines,
      List.count_eq_zero.mpr hsv, defineFlags, hshape]
    rw [List.filterMap_append, List.filterMap_cons]
    have hmid : defTok ("NAPI_VERSION", DefVal.num wi) = some (napiTok wi) := by
      simp [defTok, napiTok]
    rw [hmid, List.count_append]
    rw [count_filterMap_defTok_zero A (napiTok v)
      (fun p hp => hdv p (hmemA p hp) (hA p hp))]
    have hne : napiTok wi ≠ napiTok v := fun h => hwv (napiTok_inj h)
    simp [List.count_cons, hne,
      count_filterMap_defTok_zero B (napiTok v)
        (fun p hp => hdv p (hmemB p hp) (hB p hp))]

/-- Witness for the amended claim C3: `napiVersion` 8 with user define
`NAPI_VERSION = 9` yields `-DNAPI_VERSION=9` exactly once and no
`-DNAPI_VERSION=8` token. -/
theorem claim3_witness :
    (mkResult tNapi ctxW none).flags.count (napiTok 9) = 1
    ∧ ((9 : Int) ≠ 8 → napiTok 8 ∉ (mkResult tNapi ctxW none).flags) :=
  claim3_napi_define_once tNapi ctxW (mkResult tNapi ctxW none) 8 9 rfl rfl
    (by decide) (Or.inl rfl) (by decide) (by decide) (by decide) (by decide)

/-! Claim C6: properties of the first-occurrence deduplication. -/

theorem jsDedup_cond {α : Type} [DecidableEq α] {db : List α} {p : Nat × α}
    (h : p ∈ db.enum.filter fun q => db.indexOf q.2 == q.1) :
    p ∈ db.enum ∧ db.indexOf p.2 = p.1 := by
  have h' := List.mem_filter.mp h
  exact ⟨h'.1, by simpa using h'.2⟩

theorem mem_jsDedup {α : Type} [DecidableEq α] {db : List α} {x : α} :
    x ∈ jsDedup db ↔ x ∈ db := by
  constructor
  · intro hx
    obtain ⟨p, hp, hpx⟩ := List.mem_map.mp hx
    obtain ⟨hpe, -⟩ := jsDedup_cond hp
    have := List.mem_enum_iff_getElem?.mp hpe
    exact hpx ▸ List.getElem?_mem this
  · intro hx
    apply List.mem_map.mpr
    refine ⟨(db.indexOf x, x), List.mem_filter.mpr ⟨?_, by simp⟩, rfl⟩
    exact List.mem_enum_iff_getElem?.mpr (List.getElem?_indexOf hx)

theorem nodup_enum {α : Type} (l : List α) : l.enum.Nodup := by
  apply List.Nodup.of_map Prod.fst
  rw [List.enum_eq_enumFrom, List.enumFrom_map_fst]
  exact List.nodup_range' 0 l.length

theorem pairwise_fst_enum {α : Type} (l : List α) :
    l.enum.Pairwise fun p q => p.1 < q.1 := by
  apply List.pairwise_map.mp
  rw [List.enum_eq_enumFrom, List.enumFrom_map_fst]
  exact List.pairwise_lt_range' 0 l.length

theorem nodup_jsDedup {α : Type} [DecidableEq α] (db : List α) :
    (jsDedup db).Nodup := by
  apply List.Nodup.map_on
  · intro p hp q hq hs
    obtain ⟨-, hip⟩ := jsDedup_cond hp
    obtain ⟨-, hiq⟩ := jsDedup_cond hq
    have : p.1 = q.1 := by rw [← hip, ← hiq, hs]
    exact Prod.ext this hs
  · exact (nodup_enum db).filter _

theorem pairwise_jsDedup {α : Type} [DecidableEq α] (db : List α) :
    (jsDedup db).Pairwise fun a b => db.indexOf a < db.indexOf b := by
  apply List.pairwise_map.mpr
  have hf : (db.enum.filter fun q => db.indexOf q.2 == q.1).Pairwise
      fun p q => p.1 < q.1 :=
    (pairwise_fst_enum db).sublist (List.filter_sublist _)
  apply hf.imp_of_mem
  intro p q hp hq hlt
  rw [(jsDedup_cond hp).2, (jsDedup_cond hq).2]
  exact hlt

/-- Claim C6: whenever the orchestrator writes a compilation database,
the written list has no duplicate entries (structurally identical groups
collapse to one representative), contains exactly the entries of the
accumulated list, and lists them in the order of their first occurrence
(strictly increasing first-occurrence index). -/
theorem claim6_dedup (rs : List (Except Int Unit)) (db : List CompilationDatabase)
    (opt : DbOption) (cwd p : String) (out : List CompilationDatabase)
    (h : (buildFinish rs db opt cwd).1 = some (p, out)) :
    out.Nodup
    ∧ (∀ x, x ∈ out ↔ x ∈ db)
    ∧ out.Pairwise (fun a b => db.indexOf a < db.indexOf b) := by
  have hout : out = jsDedup db := by
    unfold buildFinish at h
    split at h
    · simp at h
    · cases hn : dbFileName opt with
      | none => rw [hn] at h; simp at h
      | some n =>
        rw [hn] at h
        simp only [Option.map_some'] at h
        have := (Option.some.injEq _ _).mp h
        exact (Prod.mk.injEq _ _ _ _).mp this |>.2.symm
  subst hout
  exact ⟨nodup_jsDedup db, fun x => mem_jsDedup, pairwise_jsDedup db⟩

/-- Witness for claim C6: a database with a structural duplicate (two
distinct entry values, the first repeated) collapses to the two distinct
entries in first-occurrence order. -/
theorem claim6_witness :
    ([dbE1, dbE2].Nodup
      ∧ (∀ x, x ∈ [dbE1, dbE2] ↔ x ∈ [dbE1, dbE2, dbE1])
      ∧ [dbE1, dbE2].Pairwise
          (fun a b => [dbE1, dbE2, dbE1].indexOf a < [dbE1, dbE2, dbE1].indexOf b)) :=
  claim6_dedup [] [dbE1, dbE2, dbE1] (DbOption.flag true) "/w"
    "/w/compile_commands.json" [dbE1, dbE2] rfl

/-- Witness for the amended claim C8: the GNU-triple target with a
frameworks field gets the framework token, and the Windows-triple target
with an rpath field gets the rpath token. -/
theorem claim8_witness :
    "-Cocoa" ∈ (mkResult tGnuFw ctxW none).flags
    ∧ "-Wl,-rpath,/r"
        ∈ (mkResult tWinRpath ctxW
            (some (dlltoolFlags ctxW ++ ["-m", "i386:x86-64"]))).flags :=
  ⟨(claim8_presence_gated tGnuFw ctxW (mkResult tGnuFw ctxW none) ["Cocoa"] []
      rfl).1 rfl "Cocoa" (by decide),
   (claim8_presence_gated tWinRpath ctxW
      (mkResult tWinRpath ctxW (some (dlltoolFlags ctxW ++ ["-m", "i386:x86-64"])))
      [] ["/r"] rfl).2 rfl "/r" (by decide)⟩

end ZigBuild
